import Mathlib

/-!
Shallow embedding of the Hedera non-custodial payment settlement code
(`rest/server/services/hedera_service.py`) and the supporting client helpers
(`rest/client/flower_shop/simple_happy_path_client.py`), together with proofs
of the specification's claims about them.

Python integers are modelled as `ℤ` (arbitrary precision, as in Python);
HBAR amounts that the code manipulates as decimal quantities are modelled
as exact rationals `ℚ`; tinybars (the ledger's base unit) are `ℤ`.
External collaborators (base64 decoding, SDK transaction parsing, network
submission) are modelled as oracle parameters, since the service only
consumes their results through narrow interfaces.
-/

namespace HederaPayment

/-- Hedera account identifiers are opaque strings (e.g. "0.0.12345"). -/
abbrev AccountId := String

/-- One tinybar-denominated transfer leg: `(account_id, amount)`.
`transaction.hbar_transfers` is an insertion-ordered mapping from account id
to amount; we model it as an association list. -/
abbrev Transfers := List (AccountId × ℤ)

/-- Python `int(q)` on an exact rational value: truncation toward zero. -/
def pyInt (q : ℚ) : ℤ := if 0 ≤ q then ⌊q⌋ else ⌈q⌉

/-- `Hbar.to_hbar()`: convert a tinybar amount to HBAR
(1 HBAR = 100,000,000 tinybars), exactly. -/
def toHbar (tinybars : ℤ) : ℚ := (tinybars : ℚ) / 100000000

/-- The `Hbar(amount_hbar)` constructor: an HBAR-denominated amount is
stored as `int(amount * 100_000_000)` tinybars. -/
def hbarCtorTinybars (amountHbar : ℚ) : ℤ := pyInt (amountHbar * 100000000)

/-- The two `raise ValueError` sites of
`HederaPaymentService._validate_transaction`. -/
inductive ValidationError where
  /-- "No transfer to merchant account ... found" -/
  | noTransferToMerchant (merchant : AccountId)
  /-- "Insufficient amount: expected ..., got ..." -/
  | insufficientAmount (expected actual : ℚ)
  deriving DecidableEq, Repr

/-- The `for account_id, amount in transfers.items(): if account_id ==
self.merchant_account_id: ... break` loop: first leg whose account equals
the merchant account, if any. -/
def findMerchantTransfer (transfers : Transfers) (merchant : AccountId) :
    Option ℤ :=
  match transfers with
  | [] => none
  | (accountId, amount) :: rest =>
    if accountId = merchant then some amount
    else findMerchantTransfer rest merchant

/-- `HederaPaymentService._validate_transaction`, as a function of the
transfer legs, the configured merchant account and the expected amount
(in HBAR). `Except.ok ()` is normal return; `Except.error` is the raised
`ValueError`. -/
def validateTransaction (transfers : Transfers) (merchant : AccountId)
    (expectedAmountHbar : ℚ) : Except ValidationError Unit :=
  match findMerchantTransfer transfers merchant with
  | none => .error (.noTransferToMerchant merchant)
  | some merchantTransfer =>
    let actualHbar := toHbar merchantTransfer
    let expectedHbar := toHbar (hbarCtorTinybars expectedAmountHbar)
    if actualHbar < expectedHbar then
      .error (.insufficientAmount expectedHbar actualHbar)
    else
      .ok ()

/-- The read-only configuration the service object carries
(`self.network_name`, `self.merchant_account_id`). -/
structure ServiceState where
  networkName : String
  merchantAccountId : AccountId
  deriving DecidableEq, Repr

/-- `_validate_transaction` as the method actually runs: it reads the
service state and the transfer legs and returns them unchanged alongside
the outcome (the method body only reads `self.merchant_account_id`;
it assigns no attribute and does not mutate the transaction). -/
def validateTransactionRun (s : ServiceState) (transfers : Transfers)
    (expectedAmountHbar : ℚ) :
    Except ValidationError Unit × ServiceState × Transfers :=
  (validateTransaction transfers s.merchantAccountId expectedAmountHbar,
   s, transfers)

/- ### The settlement pipeline (`process_pre_signed_payment`) -/

/-- The object `Transaction.from_bytes` yields: either a
`TransferTransaction` carrying hbar transfer legs, or a transaction of some
other kind (identified by its type name, as in
`type(transaction).__name__`). -/
inductive ParsedTx where
  | transfer (transfers : Transfers)
  | other (typeName : String)
  deriving DecidableEq, Repr

/-- A finalized network receipt: `receipt.status.name` and
`receipt.timestamp` (already rendered to a string when present, as the code
does with `str(receipt.timestamp)`). -/
structure Receipt where
  statusName : String
  timestamp : Option String
  deriving DecidableEq, Repr

/-- External collaborators consumed by `process_pre_signed_payment`:
`base64.b64decode`, `Transaction.from_bytes`, and the network round trip
`transaction.execute(client)` / `response.get_receipt(client)` (which on
success yields `response.transaction_id` rendered by `str`, and the
receipt). An `Except.error` models the exception each can raise, carried
as its message string. Bytes are modelled as `List ℕ`. -/
structure Ledger where
  b64decode : String → Except String (List ℕ)
  fromBytes : List ℕ → Except String ParsedTx
  execute : ParsedTx → Except String (String × Receipt)

/-- The raise sites of `process_pre_signed_payment`, one constructor per
`raise`, carrying what the interpolated message carries. The first three
are `ValueError`s, the last two plain `Exception`s. -/
inductive SettlementError where
  /-- "Invalid base64 encoding: ..." -/
  | invalidBase64 (detail : String)
  /-- "Invalid transaction bytes: ..." -/
  | invalidTransactionBytes (detail : String)
  /-- "Expected TransferTransaction, got ..." -/
  | notTransferTransaction (typeName : String)
  /-- `ValueError` propagated from `_validate_transaction` -/
  | validationError (e : ValidationError)
  /-- "Hedera network error: ..." -/
  | hederaNetworkError (detail : String)
  /-- "Transaction failed with status: ..." -/
  | transactionFailedWithStatus (status : String)
  deriving DecidableEq, Repr

/-- The message string of each raised exception, as formatted by the
f-strings of `process_pre_signed_payment` (amounts elided: the code
interpolates `Hbar` objects whose rendering the SDK owns). -/
def SettlementError.message : SettlementError → String
  | .invalidBase64 d => "Invalid base64 encoding: " ++ d
  | .invalidTransactionBytes d => "Invalid transaction bytes: " ++ d
  | .notTransferTransaction t => "Expected TransferTransaction, got " ++ t
  | .validationError (.noTransferToMerchant m) =>
      "No transfer to merchant account " ++ m ++ " found"
  | .validationError (.insufficientAmount _ _) => "Insufficient amount"
  | .hederaNetworkError d => "Hedera network error: " ++ d
  | .transactionFailedWithStatus s =>
      "Transaction failed with status: " ++ s

/-- Whether a settlement error is the malformed-credential failure
(a decode or parse failure, steps 1-2 of the pipeline). -/
def SettlementError.isMalformedCredential : SettlementError → Bool
  | .invalidBase64 _ => true
  | .invalidTransactionBytes _ => true
  | _ => false

/-- The success dict returned by `process_pre_signed_payment`. -/
structure SettlementResult where
  transactionId : String
  status : String
  network : String
  timestamp : Option String
  explorerUrl : String
  deriving DecidableEq, Repr

/-- The `base_urls` dict of `_get_explorer_url`. -/
def baseUrls : List (String × String) :=
  [("mainnet", "https://hashscan.io/mainnet"),
   ("testnet", "https://hashscan.io/testnet"),
   ("previewnet", "https://hashscan.io/previewnet")]

/-- `HederaPaymentService._get_explorer_url`. -/
def getExplorerUrl (networkName : String) (transactionId : String) :
    String :=
  let baseUrl := (baseUrls.lookup networkName).getD
    "https://hashscan.io/testnet"
  baseUrl ++ "/transaction/" ++ transactionId

/-- `HederaPaymentService.process_pre_signed_payment`, instrumented with
the list of transactions actually handed to `transaction.execute` (empty
when execution never reaches step 5). Each `match` arm mirrors one step of
the pipeline; an `Except.error` models the exception raised there. -/
def processPreSignedPayment (env : Ledger) (s : ServiceState)
    (signedTransactionBase64 : String) (expectedAmountHbar : ℚ) :
    Except SettlementError SettlementResult × List ParsedTx :=
  match env.b64decode signedTransactionBase64 with
  | .error e => (.error (.invalidBase64 e), [])
  | .ok txBytes =>
    match env.fromBytes txBytes with
    | .error e => (.error (.invalidTransactionBytes e), [])
    | .ok (.other typeName) =>
      (.error (.notTransferTransaction typeName), [])
    | .ok (.transfer transfers) =>
      match validateTransaction transfers s.merchantAccountId
          expectedAmountHbar with
      | .error ve => (.error (.validationError ve), [])
      | .ok _ =>
        match env.execute (.transfer transfers) with
        | .error e => (.error (.hederaNetworkError e), [.transfer transfers])
        | .ok (transactionId, receipt) =>
          if receipt.statusName ≠ "SUCCESS" then
            (.error (.transactionFailedWithStatus receipt.statusName),
             [.transfer transfers])
          else
            (.ok { transactionId := transactionId
                   status := "SUCCESS"
                   network := s.networkName
                   timestamp := receipt.timestamp
                   explorerUrl := getExplorerUrl s.networkName
                     transactionId },
             [.transfer transfers])

/- ### The client (`simple_happy_path_client.py`) -/

/-- `TransferTransaction.add_hbar_transfer`: accumulate an amount into the
insertion-ordered account → amount mapping. -/
def addHbarTransfer (transfers : Transfers) (account : AccountId)
    (amount : ℤ) : Transfers :=
  if transfers.any fun p => p.1 = account then
    transfers.map fun p =>
      if p.1 = account then (p.1, p.2 + amount) else p
  else
    transfers ++ [(account, amount)]

/-- The transfer legs built by `create_hedera_payment`:
`amount_tinybars = int(amount_hbar * 100_000_000)`, then one
`add_hbar_transfer(customer, -amount_tinybars)` and one
`add_hbar_transfer(merchant, amount_tinybars)` on a fresh transaction. -/
def createHederaPaymentTransfers (customer merchant : AccountId)
    (amountHbar : ℚ) : Transfers :=
  let amountTinybars := pyInt (amountHbar * 100000000)
  addHbarTransfer (addHbarTransfer [] customer (-amountTinybars))
    merchant amountTinybars

/-- JSON-like Python values as handled by `remove_none_values`:
`None`, scalars (bool / number / string), lists and dicts. -/
inductive Json where
  | null
  | bool (b : Bool)
  | num (n : ℚ)
  | str (s : String)
  | arr (elements : List Json)
  | obj (fields : List (String × Json))

/-- `v is None`. -/
def Json.isNull : Json → Bool
  | .null => true
  | _ => false

/-- `isinstance(obj, dict)`. -/
def Json.isObj : Json → Bool
  | .obj _ => true
  | _ => false

/-- `isinstance(obj, list)`. -/
def Json.isArr : Json → Bool
  | .arr _ => true
  | _ => false

mutual

/-- `remove_none_values`: on a dict, keep the entries whose (original)
value is not `None` and recurse into the kept values; on a list, recurse
into every element; return anything else unchanged. -/
def removeNoneValues : Json → Json
  | .obj fields => .obj (removeNoneValuesFields fields)
  | .arr elements => .arr (removeNoneValuesList elements)
  | j => j

/-- The dict comprehension
`{k: remove_none_values(v) for k, v in obj.items() if v is not None}`. -/
def removeNoneValuesFields :
    List (String × Json) → List (String × Json)
  | [] => []
  | (k, v) :: rest =>
    if v.isNull then removeNoneValuesFields rest
    else (k, removeNoneValues v) :: removeNoneValuesFields rest

/-- The list comprehension `[remove_none_values(v) for v in obj]`. -/
def removeNoneValuesList : List Json → List Json
  | [] => []
  | v :: rest => removeNoneValues v :: removeNoneValuesList rest

end

/- ### Concrete test fixtures (used by witness theorems) -/

/-- A service configured for testnet with merchant account 0.0.2. -/
def sampleState : ServiceState := ⟨"testnet", "0.0.2"⟩

/-- Transfer legs paying 1 HBAR from 0.0.9 to the merchant 0.0.2. -/
def okTransfers : Transfers :=
  [("0.0.9", -100000000), ("0.0.2", 100000000)]

/-- A finalized receipt with the canonical success status. -/
def sampleReceiptOk : Receipt := ⟨"SUCCESS", some "1700000000.123456789"⟩

/-- A finalized receipt with a non-success status. -/
def sampleReceiptRejected : Receipt := ⟨"INSUFFICIENT_PAYER_BALANCE", none⟩

/-- Collaborators for a fully successful settlement run. -/
def ledgerOk : Ledger :=
  ⟨fun _ => .ok [10, 20], fun _ => .ok (.transfer okTransfers),
   fun _ => .ok ("0.0.9@1700000000.000000001", sampleReceiptOk)⟩

/-- Collaborators whose network round trip reports a non-success status. -/
def ledgerRejected : Ledger :=
  ⟨fun _ => .ok [10, 20], fun _ => .ok (.transfer okTransfers),
   fun _ => .ok ("0.0.9@1700000000.000000001", sampleReceiptRejected)⟩

/-- Collaborators for which base64 decoding raises. -/
def ledgerBadBase64 : Ledger :=
  ⟨fun _ => .error "Invalid base64-encoded string",
   fun _ => .error "unreachable", fun _ => .error "unreachable"⟩

/-- Collaborators for which transaction parsing raises. -/
def ledgerBadBytes : Ledger :=
  ⟨fun _ => .ok [10, 20], fun _ => .error "could not parse",
   fun _ => .error "unreachable"⟩

/-- Collaborators that parse the bytes into a non-transfer transaction. -/
def ledgerOtherKind : Ledger :=
  ⟨fun _ => .ok [10, 20], fun _ => .ok (.other "TokenCreateTransaction"),
   fun _ => .error "unreachable"⟩

/-- Collaborators that parse into a transfer with no merchant leg. -/
def ledgerWrongRecipient : Ledger :=
  ⟨fun _ => .ok [10, 20],
   fun _ => .ok (.transfer [("0.0.9", -5), ("0.0.3", 5)]),
   fun _ => .error "unreachable"⟩

end HederaPayment

namespace HederaPayment

/- ### Helper lemmas about the validator -/

theorem findMerchantTransfer_eq_none (transfers : Transfers)
    (merchant : AccountId) (h : ∀ p ∈ transfers, p.1 ≠ merchant) :
    findMerchantTransfer transfers merchant = none := by
  induction transfers with
  | nil => rfl
  | cons hd tl ih =>
    simp only [findMerchantTransfer]
    rw [if_neg (h hd (List.mem_cons_self hd tl))]
    exact ih fun p hp => h p (List.mem_cons_of_mem hd hp)

theorem findMerchantTransfer_mem (transfers : Transfers)
    (merchant : AccountId) (a : ℤ)
    (h : findMerchantTransfer transfers merchant = some a) :
    (merchant, a) ∈ transfers := by
  induction transfers with
  | nil => simp [findMerchantTransfer] at h
  | cons hd tl ih =>
    simp only [findMerchantTransfer] at h
    by_cases hc : hd.1 = merchant
    · rw [if_pos hc] at h
      have ha : hd.2 = a := by injection h
      have : (merchant, a) = hd := by
        rw [← hc, ← ha]
      rw [this]
      exact List.mem_cons_self hd tl
    · rw [if_neg hc] at h
      exact List.mem_cons_of_mem hd (ih h)

theorem toHbar_lt_toHbar (a b : ℤ) : toHbar a < toHbar b ↔ a < b := by
  unfold toHbar
  rw [div_lt_div_iff_of_pos_right (by norm_num)]
  exact_mod_cast Iff.rfl

theorem validateTransaction_of_find (transfers : Transfers)
    (merchant : AccountId) (e : ℚ) (a : ℤ)
    (hfind : findMerchantTransfer transfers merchant = some a) :
    validateTransaction transfers merchant e =
      if toHbar a < toHbar (hbarCtorTinybars e) then
        .error (.insufficientAmount (toHbar (hbarCtorTinybars e)) (toHbar a))
      else
        .ok () := by
  unfold validateTransaction
  rw [hfind]

/- ### Claims about the settlement validator -/

/-- **C1.** For every decoded transfer containing a leg to the merchant
settlement account, settlement validation succeeds iff that leg's amount is
at least the expected amount: strictly below yields the insufficient-amount
(`AmountTooLow`) failure, equal passes, and above passes (overpayment
accepted). -/
theorem validate_amount_ge_iff_ok (transfers : Transfers)
    (merchant : AccountId) (e : ℚ) (a : ℤ)
    (hfind : findMerchantTransfer transfers merchant = some a) :
    (toHbar a < toHbar (hbarCtorTinybars e) →
      validateTransaction transfers merchant e =
        .error (.insufficientAmount (toHbar (hbarCtorTinybars e))
          (toHbar a))) ∧
    (toHbar a = toHbar (hbarCtorTinybars e) →
      validateTransaction transfers merchant e = .ok ()) ∧
    (toHbar (hbarCtorTinybars e) < toHbar a →
      validateTransaction transfers merchant e = .ok ()) := by
  rw [validateTransaction_of_find transfers merchant e a hfind]
  refine ⟨fun h => ?_, fun h => ?_, fun h => ?_⟩
  · rw [if_pos h]
  · rw [if_neg (by rw [h]; exact lt_irrefl _)]
  · rw [if_neg (not_lt_of_gt h)]

/-- Witness for C1 at concrete inputs: expected 1 HBAR; a 99999999-tinybar
leg is rejected as too low, a 100000000-tinybar leg passes, and a
100000001-tinybar leg passes (overpayment). -/
theorem validate_amount_ge_iff_ok_witness :
    validateTransaction [("0.0.2", 99999999)] "0.0.2" 1 =
      .error (.insufficientAmount (toHbar (hbarCtorTinybars 1))
        (toHbar 99999999)) ∧
    validateTransaction [("0.0.2", 100000000)] "0.0.2" 1 = .ok () ∧
    validateTransaction [("0.0.2", 100000001)] "0.0.2" 1 = .ok () := by
  have h1 := validate_amount_ge_iff_ok [("0.0.2", 99999999)] "0.0.2" 1
    99999999 rfl
  have h2 := validate_amount_ge_iff_ok [("0.0.2", 100000000)] "0.0.2" 1
    100000000 rfl
  have h3 := validate_amount_ge_iff_ok [("0.0.2", 100000001)] "0.0.2" 1
    100000001 rfl
  refine ⟨h1.1 ?_, h2.2.1 ?_, h3.2.2 ?_⟩
  · unfold toHbar hbarCtorTinybars pyInt
    norm_num
  · unfold toHbar hbarCtorTinybars pyInt
    norm_num
  · unfold toHbar hbarCtorTinybars pyInt
    norm_num

/-- **C3.** The validator selects a transfer leg whose recipient equals the
merchant settlement account (any leg it selects is a merchant leg of the
transfer), and if no leg of the transfer has the merchant account as
recipient, validation fails with the recipient-mismatch failure for every
expected amount — the amount comparison is never reached. -/
theorem validate_recipient_selection (transfers : Transfers)
    (merchant : AccountId) :
    (∀ a, findMerchantTransfer transfers merchant = some a →
      (merchant, a) ∈ transfers) ∧
    ((∀ p ∈ transfers, p.1 ≠ merchant) → ∀ e : ℚ,
      validateTransaction transfers merchant e =
        .error (.noTransferToMerchant merchant)) := by
  constructor
  · exact fun a h => findMerchantTransfer_mem transfers merchant a h
  · intro hnone e
    unfold validateTransaction
    rw [findMerchantTransfer_eq_none transfers merchant hnone]

/-- Witness for C3: a transfer whose only legs pay 0.0.5 and 0.0.6 fails
with recipient mismatch against merchant 0.0.2, whatever the expected
amount. -/
theorem validate_recipient_selection_witness :
    (("0.0.2", (7 : ℤ)) ∈ ([("0.0.2", 7)] : Transfers)) ∧
    validateTransaction [("0.0.5", 100000000), ("0.0.6", 1)] "0.0.2" 1 =
      .error (.noTransferToMerchant "0.0.2") := by
  refine ⟨(validate_recipient_selection [("0.0.2", 7)] "0.0.2").1 7 rfl,
    (validate_recipient_selection _ "0.0.2").2 ?_ 1⟩
  intro p hp
  simp only [List.mem_cons, List.mem_singleton] at hp
  rcases hp with h | h | h
  · rw [h]
    decide
  · rw [h]
    decide
  · exact absurd h (List.not_mem_nil p)

/-- **C5.** The validator's accept/reject decision equals an exact integer
comparison of the two amounts in the ledger's base unit (tinybars):
validation passes iff the expected amount in tinybars is at most the leg's
tinybar amount, and the amount-too-low failure occurs iff the leg's
tinybar amount is strictly below the expected tinybars. -/
theorem amount_comparison_integer_base_units (transfers : Transfers)
    (merchant : AccountId) (e : ℚ) (a : ℤ)
    (hfind : findMerchantTransfer transfers merchant = some a) :
    (validateTransaction transfers merchant e = .ok () ↔
      hbarCtorTinybars e ≤ a) ∧
    ((∃ exp act, validateTransaction transfers merchant e =
      .error (.insufficientAmount exp act)) ↔ a < hbarCtorTinybars e) := by
  rw [validateTransaction_of_find transfers merchant e a hfind]
  by_cases h : toHbar a < toHbar (hbarCtorTinybars e)
  · rw [if_pos h]
    rw [toHbar_lt_toHbar] at h
    constructor
    · exact ⟨fun hc => absurd hc (by simp), fun hc => absurd hc
        (not_le_of_lt h)⟩
    · exact ⟨fun _ => h, fun _ => ⟨_, _, rfl⟩⟩
  · rw [if_neg h]
    rw [toHbar_lt_toHbar] at h
    constructor
    · exact ⟨fun _ => le_of_not_lt h, fun _ => rfl⟩
    · constructor
      · rintro ⟨exp, act, hc⟩
        exact absurd hc (by simp)
      · intro hc
        exact absurd hc h

/-- Witness for C5: with expected 1 HBAR (100000000 tinybars), a
100000000-tinybar leg passes and a 99999999-tinybar leg is the
amount-too-low failure, matching the integer comparisons. -/
theorem amount_comparison_integer_base_units_witness :
    (validateTransaction [("0.0.2", 100000000)] "0.0.2" 1 = .ok () ∧
      hbarCtorTinybars 1 ≤ 100000000) ∧
    ((∃ exp act, validateTransaction [("0.0.2", 99999999)] "0.0.2" 1 =
      .error (.insufficientAmount exp act)) ∧
      (99999999 : ℤ) < hbarCtorTinybars 1) := by
  have hE : hbarCtorTinybars 1 = 100000000 := by
    unfold hbarCtorTinybars pyInt
    norm_num
  have h1 := amount_comparison_integer_base_units [("0.0.2", 100000000)]
    "0.0.2" 1 100000000 rfl
  have h2 := amount_comparison_integer_base_units [("0.0.2", 99999999)]
    "0.0.2" 1 99999999 rfl
  refine ⟨⟨h1.1.mpr ?_, ?_⟩, ⟨h2.2.mpr ?_, ?_⟩⟩ <;> rw [hE] <;> norm_num

/-- **C7.** The settlement validator is pure, side-effect-free and
deterministic: two runs on equal inputs (same transfer legs, same merchant
account, same expected amount) produce the same outcome, whatever the rest
of the service state, and a run returns the service state and the transfer
legs unchanged. -/
theorem validate_pure_deterministic (s₁ s₂ : ServiceState)
    (tr₁ tr₂ : Transfers) (e₁ e₂ : ℚ)
    (hm : s₁.merchantAccountId = s₂.merchantAccountId)
    (ht : tr₁ = tr₂) (he : e₁ = e₂) :
    (validateTransactionRun s₁ tr₁ e₁).1 =
      (validateTransactionRun s₂ tr₂ e₂).1 ∧
    (validateTransactionRun s₁ tr₁ e₁).2.1 = s₁ ∧
    (validateTransactionRun s₁ tr₁ e₁).2.2 = tr₁ := by
  subst ht he
  unfold validateTransactionRun
  rw [hm]
  exact ⟨rfl, rfl, rfl⟩

/-- Witness for C7: two service states agreeing on the merchant account
but differing in network name validate the same transfer identically, and
the run leaves state and transfers unchanged. -/
theorem validate_pure_deterministic_witness :
    (validateTransactionRun ⟨"testnet", "0.0.2"⟩ [("0.0.2", 5)] 1).1 =
      (validateTransactionRun ⟨"mainnet", "0.0.2"⟩ [("0.0.2", 5)] 1).1 ∧
    (validateTransactionRun ⟨"testnet", "0.0.2"⟩ [("0.0.2", 5)] 1).2.1 =
      ⟨"testnet", "0.0.2"⟩ ∧
    (validateTransactionRun ⟨"testnet", "0.0.2"⟩ [("0.0.2", 5)] 1).2.2 =
      [("0.0.2", 5)] :=
  validate_pure_deterministic ⟨"testnet", "0.0.2"⟩ ⟨"mainnet", "0.0.2"⟩
    [("0.0.2", 5)] [("0.0.2", 5)] 1 1 rfl rfl rfl

/-- **C8.** For every configured network name other than mainnet, testnet
or previewnet, the explorer URL falls back to the testnet base URL. -/
theorem explorer_url_unknown_network_fallback (network txId : String)
    (h1 : network ≠ "mainnet") (h2 : network ≠ "testnet")
    (h3 : network ≠ "previewnet") :
    getExplorerUrl network txId =
      "https://hashscan.io/testnet" ++ "/transaction/" ++ txId := by
  unfold getExplorerUrl baseUrls
  simp only [List.lookup]
  have hb1 : (network == "mainnet") = false := by simp [h1]
  have hb2 : (network == "testnet") = false := by simp [h2]
  have hb3 : (network == "previewnet") = false := by simp [h3]
  rw [hb1, hb2, hb3]
  rfl

/-- Witness for C8 at the unknown network name "devnet". -/
theorem explorer_url_unknown_network_fallback_witness :
    getExplorerUrl "devnet" "0.0.7@123" =
      "https://hashscan.io/testnet" ++ "/transaction/" ++ "0.0.7@123" :=
  explorer_url_unknown_network_fallback "devnet" "0.0.7@123"
    (by decide) (by decide) (by decide)

/- ### Claims about the settlement pipeline -/

/-- **C4.** The pipeline runs decode, parse, kind check, validation,
submission, receipt interpretation in that fixed order and each step
short-circuits to its own typed failure: a base64 decoding failure or a
transaction parsing failure yields the malformed-credential failure, a
decoded transaction that is not a transfer yields the
unsupported-transaction-kind failure, and whenever any step before
submission fails (including validation), the transaction is never handed
to the network (the submission trace is empty). -/
theorem process_short_circuit_typed_failures (env : Ledger)
    (s : ServiceState) (cred : String) (e : ℚ) :
    (∀ m, env.b64decode cred = .error m →
      processPreSignedPayment env s cred e =
        (.error (.invalidBase64 m), []) ∧
      (SettlementError.invalidBase64 m).isMalformedCredential = true) ∧
    (∀ bs m, env.b64decode cred = .ok bs →
      env.fromBytes bs = .error m →
      processPreSignedPayment env s cred e =
        (.error (.invalidTransactionBytes m), []) ∧
      (SettlementError.invalidTransactionBytes m).isMalformedCredential =
        true) ∧
    (∀ bs t, env.b64decode cred = .ok bs →
      env.fromBytes bs = .ok (.other t) →
      processPreSignedPayment env s cred e =
        (.error (.notTransferTransaction t), [])) ∧
    (∀ bs tr ve, env.b64decode cred = .ok bs →
      env.fromBytes bs = .ok (.transfer tr) →
      validateTransaction tr s.merchantAccountId e = .error ve →
      processPreSignedPayment env s cred e =
        (.error (.validationError ve), [])) := by
  refine ⟨fun m hm => ?_, fun bs m hbs hm => ?_, fun bs t hbs ht => ?_,
    fun bs tr ve hbs htr hv => ?_⟩
  · unfold processPreSignedPayment
    rw [hm]
    exact ⟨rfl, rfl⟩
  · unfold processPreSignedPayment
    rw [hbs]
    simp only []
    rw [hm]
    exact ⟨rfl, rfl⟩
  · unfold processPreSignedPayment
    rw [hbs]
    simp only []
    rw [ht]
  · unfold processPreSignedPayment
    rw [hbs]
    simp only []
    rw [htr]
    simp only []
    rw [hv]

/-- Witness for C4: concrete runs hitting each pre-submission failure, all
with an empty submission trace. -/
theorem process_short_circuit_typed_failures_witness :
    processPreSignedPayment ledgerBadBase64 sampleState "!" 1 =
      (.error (.invalidBase64 "Invalid base64-encoded string"), []) ∧
    processPreSignedPayment ledgerBadBytes sampleState "AA==" 1 =
      (.error (.invalidTransactionBytes "could not parse"), []) ∧
    processPreSignedPayment ledgerOtherKind sampleState "AA==" 1 =
      (.error (.notTransferTransaction "TokenCreateTransaction"), []) ∧
    processPreSignedPayment ledgerWrongRecipient sampleState "AA==" 1 =
      (.error (.validationError (.noTransferToMerchant "0.0.2")), []) := by
  have hv : validateTransaction [("0.0.9", -5), ("0.0.3", 5)]
      sampleState.merchantAccountId 1 =
      .error (.noTransferToMerchant "0.0.2") := by
    simp [sampleState, validateTransaction, findMerchantTransfer]
  exact ⟨((process_short_circuit_typed_failures ledgerBadBase64 sampleState
      "!" 1).1 _ rfl).1,
    ((process_short_circuit_typed_failures ledgerBadBytes sampleState
      "AA==" 1).2.1 _ _ rfl rfl).1,
    (process_short_circuit_typed_failures ledgerOtherKind sampleState
      "AA==" 1).2.2.1 _ _ rfl rfl,
    (process_short_circuit_typed_failures ledgerWrongRecipient sampleState
      "AA==" 1).2.2.2 _ _ _ rfl rfl hv⟩

/-- **C2.** Receipt interpretation is fail-closed: after submission, the
pipeline reports success iff the receipt status equals the single
canonical value "SUCCESS" exactly; for every other status value it reports
the transaction-failed error whose reason string preserves the ledger's
reported status, and never reports success. -/
theorem receipt_status_fail_closed (env : Ledger) (s : ServiceState)
    (cred : String) (e : ℚ) (bs : List ℕ) (tr : Transfers)
    (txId : String) (receipt : Receipt)
    (hbs : env.b64decode cred = .ok bs)
    (htr : env.fromBytes bs = .ok (.transfer tr))
    (hv : validateTransaction tr s.merchantAccountId e = .ok ())
    (hx : env.execute (.transfer tr) = .ok (txId, receipt)) :
    ((∃ r, (processPreSignedPayment env s cred e).1 = .ok r) ↔
      receipt.statusName = "SUCCESS") ∧
    (receipt.statusName ≠ "SUCCESS" →
      (processPreSignedPayment env s cred e).1 =
        .error (.transactionFailedWithStatus receipt.statusName) ∧
      (SettlementError.transactionFailedWithStatus
          receipt.statusName).message =
        "Transaction failed with status: " ++ receipt.statusName) := by
  have hp : processPreSignedPayment env s cred e =
      (if receipt.statusName ≠ "SUCCESS" then
        (.error (.transactionFailedWithStatus receipt.statusName),
         [.transfer tr])
      else
        (.ok { transactionId := txId
               status := "SUCCESS"
               network := s.networkName
               timestamp := receipt.timestamp
               explorerUrl := getExplorerUrl s.networkName txId },
         [.transfer tr])) := by
    unfold processPreSignedPayment
    rw [hbs]
    simp only []
    rw [htr]
    simp only []
    rw [hv]
    simp only []
    rw [hx]
  by_cases hstat : receipt.statusName = "SUCCESS"
  · rw [hp, if_neg (by simp [hstat])]
    constructor
    · exact ⟨fun _ => hstat, fun _ => ⟨_, rfl⟩⟩
    · exact fun h => absurd hstat h
  · rw [hp, if_pos hstat]
    constructor
    · exact ⟨fun ⟨r, hr⟩ => absurd hr (by simp), fun h => absurd h hstat⟩
    · exact fun _ => ⟨rfl, rfl⟩

/-- Witness for C2: a SUCCESS receipt yields a success result; an
INSUFFICIENT_PAYER_BALANCE receipt yields the failure carrying that
status in its reason. -/
theorem receipt_status_fail_closed_witness :
    (∃ r, (processPreSignedPayment ledgerOk sampleState "AA==" 1).1 =
      .ok r) ∧
    (processPreSignedPayment ledgerRejected sampleState "AA==" 1).1 =
      .error (.transactionFailedWithStatus
        "INSUFFICIENT_PAYER_BALANCE") ∧
    (SettlementError.transactionFailedWithStatus
        "INSUFFICIENT_PAYER_BALANCE").message =
      "Transaction failed with status: " ++
        "INSUFFICIENT_PAYER_BALANCE" := by
  have hv : validateTransaction okTransfers
      sampleState.merchantAccountId 1 = .ok () := by
    simp [okTransfers, sampleState, validateTransaction,
      findMerchantTransfer, toHbar, hbarCtorTinybars, pyInt]
  have h1 := receipt_status_fail_closed ledgerOk sampleState "AA==" 1
    [10, 20] okTransfers "0.0.9@1700000000.000000001" sampleReceiptOk
    rfl rfl hv rfl
  have h2 := receipt_status_fail_closed ledgerRejected sampleState "AA==" 1
    [10, 20] okTransfers "0.0.9@1700000000.000000001"
    sampleReceiptRejected rfl rfl hv rfl
  have h2' := h2.2 (by decide)
  exact ⟨h1.1.mpr rfl, h2'.1, h2'.2⟩

/-- **C6.** A settlement reaching a successful receipt returns the
submitted transaction's id, status SUCCESS, the configured network name,
the receipt's timestamp, and an explorer URL formed from the configured
network's base URL followed by "/transaction/" and the transaction id. -/
theorem settlement_result_fields (env : Ledger) (s : ServiceState)
    (cred : String) (e : ℚ) (bs : List ℕ) (tr : Transfers)
    (txId : String) (receipt : Receipt)
    (hbs : env.b64decode cred = .ok bs)
    (htr : env.fromBytes bs = .ok (.transfer tr))
    (hv : validateTransaction tr s.merchantAccountId e = .ok ())
    (hx : env.execute (.transfer tr) = .ok (txId, receipt))
    (hstat : receipt.statusName = "SUCCESS") :
    (processPreSignedPayment env s cred e).1 =
      .ok { transactionId := txId
            status := "SUCCESS"
            network := s.networkName
            timestamp := receipt.timestamp
            explorerUrl :=
              ((baseUrls.lookup s.networkName).getD
                "https://hashscan.io/testnet") ++
                "/transaction/" ++ txId } := by
  unfold processPreSignedPayment
  rw [hbs]
  simp only []
  rw [htr]
  simp only []
  rw [hv]
  simp only []
  rw [hx]
  simp only []
  rw [if_neg (by simp [hstat])]
  unfold getExplorerUrl
  rfl

/-- Witness for C6 on a concrete successful run against testnet. -/
theorem settlement_result_fields_witness :
    (processPreSignedPayment ledgerOk sampleState "AA==" 1).1 =
      .ok { transactionId := "0.0.9@1700000000.000000001"
            status := "SUCCESS"
            network := sampleState.networkName
            timestamp := sampleReceiptOk.timestamp
            explorerUrl :=
              ((baseUrls.lookup sampleState.networkName).getD
                "https://hashscan.io/testnet") ++
                "/transaction/" ++ "0.0.9@1700000000.000000001" } := by
  have hv : validateTransaction okTransfers
      sampleState.merchantAccountId 1 = .ok () := by
    simp [okTransfers, sampleState, validateTransaction,
      findMerchantTransfer, toHbar, hbarCtorTinybars, pyInt]
  exact settlement_result_fields ledgerOk sampleState "AA==" 1 [10, 20]
    okTransfers "0.0.9@1700000000.000000001" sampleReceiptOk rfl rfl hv
    rfl rfl

/- ### Claims about the client helpers -/

/-- **C9.** The transfer transaction the client constructs for a payment
is balanced: for every payment amount, it carries exactly one customer leg
of minus the amount truncated to tinybars (`int(amount_hbar * 10**8)`) and
one merchant leg of plus that same tinybar amount, and the legs sum to
zero. -/
theorem client_transfer_balanced (customer merchant : AccountId) (q : ℚ)
    (h : customer ≠ merchant) :
    createHederaPaymentTransfers customer merchant q =
      [(customer, -pyInt (q * 100000000)),
       (merchant, pyInt (q * 100000000))] ∧
    ((createHederaPaymentTransfers customer merchant q).map
      Prod.snd).sum = 0 := by
  have hlegs : createHederaPaymentTransfers customer merchant q =
      [(customer, -pyInt (q * 100000000)),
       (merchant, pyInt (q * 100000000))] := by
    unfold createHederaPaymentTransfers addHbarTransfer
    simp [h]
  refine ⟨hlegs, ?_⟩
  rw [hlegs]
  simp

/-- Witness for C9: a 1.5 HBAR payment from 0.0.9 to 0.0.2. -/
theorem client_transfer_balanced_witness :
    createHederaPaymentTransfers "0.0.9" "0.0.2" (3 / 2) =
      [("0.0.9", -pyInt ((3 / 2) * 100000000)),
       ("0.0.2", pyInt ((3 / 2) * 100000000))] ∧
    ((createHederaPaymentTransfers "0.0.9" "0.0.2" (3 / 2)).map
      Prod.snd).sum = 0 :=
  client_transfer_balanced "0.0.9" "0.0.2" (3 / 2) (by decide)

/- ### Helper lemmas for the none-value scrubber -/

theorem removeNoneValues_isNull (j : Json) :
    (removeNoneValues j).isNull = j.isNull := by
  cases j <;> rfl

mutual

theorem removeNoneValues_idem :
    ∀ j : Json, removeNoneValues (removeNoneValues j) = removeNoneValues j
  | .null => rfl
  | .bool _ => rfl
  | .num _ => rfl
  | .str _ => rfl
  | .arr xs => by
      simp only [removeNoneValues]
      rw [removeNoneValuesList_idem xs]
  | .obj fs => by
      simp only [removeNoneValues]
      rw [removeNoneValuesFields_idem fs]

theorem removeNoneValuesFields_idem :
    ∀ fs : List (String × Json),
      removeNoneValuesFields (removeNoneValuesFields fs) =
        removeNoneValuesFields fs
  | [] => rfl
  | (k, v) :: rest => by
      by_cases hv : v.isNull = true
      · simp only [removeNoneValuesFields, if_pos hv]
        exact removeNoneValuesFields_idem rest
      · simp only [removeNoneValuesFields, if_neg hv]
        rw [if_neg (by rw [removeNoneValues_isNull v]; exact hv)]
        rw [removeNoneValues_idem v, removeNoneValuesFields_idem rest]

theorem removeNoneValuesList_idem :
    ∀ xs : List Json,
      removeNoneValuesList (removeNoneValuesList xs) =
        removeNoneValuesList xs
  | [] => rfl
  | x :: rest => by
      simp only [removeNoneValuesList]
      rw [removeNoneValues_idem x, removeNoneValuesList_idem rest]

end

/-- **C10.** The client's none-value scrubbing is idempotent and
leaf-preserving: applying `remove_none_values` twice yields the same
result as applying it once, and every value that is not a dict or a list
is returned unchanged. -/
theorem remove_none_scrub_idem_leaf (j : Json) :
    removeNoneValues (removeNoneValues j) = removeNoneValues j ∧
    (j.isObj = false → j.isArr = false → removeNoneValues j = j) := by
  refine ⟨removeNoneValues_idem j, fun ho ha => ?_⟩
  cases j with
  | null => rfl
  | bool b => rfl
  | num n => rfl
  | str s => rfl
  | arr xs => simp [Json.isArr] at ha
  | obj fs => simp [Json.isObj] at ho

/-- Witness for C10 at the leaf value `"x"`. -/
theorem remove_none_scrub_idem_leaf_witness :
    removeNoneValues (removeNoneValues (Json.str "x")) =
      removeNoneValues (Json.str "x") ∧
    removeNoneValues (Json.str "x") = Json.str "x" :=
  ⟨(remove_none_scrub_idem_leaf (Json.str "x")).1,
   (remove_none_scrub_idem_leaf (Json.str "x")).2 rfl rfl⟩

end HederaPayment
